import Mathlib

/-! # The third-party-resources example program

A shallow embedding of `examples/third-party-resources/main.go`: the functions
`main`, `buildConfig` and `configureClient`, written as state-passing functions
over an explicit program state.  The client library the program calls into is
not part of the source file; its calls are answered by a record of functions
over an arbitrary world state (`Lib`), so that every theorem below holds for
every behaviour of the library and of the API server.
-/

namespace TPRExample

/-! ## Data model -/

/-- Modelled from the spec: the error values of the client library, of which the
program only distinguishes the not-found condition from everything else
("Two-tier taxonomy only": not-found, and everything else). -/
inductive Err where
  | notFound (message : String)
  | other (message : String)
deriving DecidableEq, Repr

namespace errors

/-- Modelled from the spec: `errors.IsNotFound`, the test for the single
recoverable condition. -/
def IsNotFound : Err → Bool
  | .notFound _ => true
  | .other _ => false

end errors

/-- Modelled from the spec: `schema.GroupVersion`, an API group and a version. -/
structure GroupVersion where
  Group : String
  Version : String
deriving DecidableEq, Repr

/-- Modelled from the spec: a negotiated serializer (codec).  `api.Codecs` is the
library's package-level codec factory; `serializer.DirectCodecFactory` wraps a
codec factory. -/
inductive NegotiatedSerializer where
  | codecFactory (name : String)
  | DirectCodecFactory (CodecFactory : NegotiatedSerializer)
deriving DecidableEq, Repr

/-- Modelled from the spec: `rest.Config`, the client configuration object.  The
four fields `configureClient` assigns are kept as they are; the remaining fields
of the library type are represented by the connection fields below. -/
structure Config where
  Host : String
  APIPath : String
  GroupVersion : Option GroupVersion
  ContentType : String
  NegotiatedSerializer : Option NegotiatedSerializer
  Username : String
  Password : String
  BearerToken : String
  Insecure : Bool
deriving DecidableEq, Repr

/-- Modelled from the spec: object metadata ("name, namespace, etc."). -/
structure ObjectMeta where
  Name : String
  Namespace : String := ""
  UID : String := ""
  ResourceVersion : String := ""
deriving DecidableEq, Repr

/-- Modelled from the spec: `v1beta1.APIVersion`, one supported version of a
resource-type registration. -/
structure APIVersion where
  Name : String
deriving DecidableEq, Repr

/-- Modelled from the spec: `v1beta1.ThirdPartyResource`, a registration
"describing the type's name, one supported version, and a description". -/
structure ThirdPartyResource where
  ObjectMeta : ObjectMeta
  Description : String := ""
  Versions : List APIVersion := []
deriving DecidableEq, Repr

/-- Modelled from the spec: the `Spec` substructure of `Example`, "containing at
least a string field Foo and a boolean field Bar". -/
structure ExampleSpec where
  Foo : String
  Bar : Bool
deriving DecidableEq, Repr

/-- Modelled from the spec: `Example`, "a custom resource object with standard
object metadata and a Spec substructure". -/
structure Example where
  Metadata : ObjectMeta
  Spec : ExampleSpec
deriving DecidableEq, Repr

/-- Modelled from the spec: `ExampleList`, "a collection wrapper holding an
ordered sequence of Example items". -/
structure ExampleList where
  Items : List Example
deriving DecidableEq, Repr

/-- Modelled from the spec: a Go type as the scheme sees it, by package and type
name. -/
structure GoType where
  pkg : String
  name : String
deriving DecidableEq, Repr

/-- Modelled from the spec: the serialization scheme `api.Scheme`, as the ordered
list of (group/version, type) registrations made into it. -/
abbrev Scheme := List (GroupVersion × GoType)

namespace runtime

/-- Modelled from the spec: `runtime.ContentTypeJSON`, the JSON content type. -/
def ContentTypeJSON : String := "application/json"

/-- Modelled from the spec: `Scheme.AddKnownTypes`, which registers each of the
given types under the given group/version. -/
def AddKnownTypes (scheme : Scheme) (gv : GroupVersion) (types : List GoType) : Scheme :=
  scheme ++ types.map (fun t => (gv, t))

/-- Modelled from the spec: `runtime.SchemeBuilder`, a list of functions that
register types into a scheme, each returning an error or nil. -/
abbrev SchemeBuilder := List (Scheme → Option Err × Scheme)

/-- Modelled from the spec: `runtime.NewSchemeBuilder`. -/
def NewSchemeBuilder (funcs : List (Scheme → Option Err × Scheme)) : SchemeBuilder := funcs

/-- Modelled from the spec: `SchemeBuilder.AddToScheme`, which applies the
functions in order and stops at the first error. -/
def SchemeBuilder.AddToScheme : SchemeBuilder → Scheme → Option Err × Scheme
  | [], scheme => (none, scheme)
  | f :: fs, scheme =>
    match f scheme with
    | (some err, scheme) => (some err, scheme)
    | (none, scheme) => SchemeBuilder.AddToScheme fs scheme

end runtime

namespace api

/-- Modelled from the spec: `api.NamespaceDefault`, the default namespace. -/
def NamespaceDefault : String := "default"

/-- Modelled from the spec: `api.Codecs`, the library's codec factory. -/
def Codecs : NegotiatedSerializer := .codecFactory "api.Codecs"

end api

/-- Modelled from the spec: the general-purpose API client, built from a copy of
the configuration it was constructed with. -/
structure Clientset where
  config : Config
deriving DecidableEq, Repr

/-- Modelled from the spec: the REST client, "a configured HTTP client scoped to
a specific API group/version/path prefix", built from a copy of the configuration
it was constructed with. -/
structure RESTClient where
  config : Config
deriving DecidableEq, Repr

/-- Modelled from the spec: a request under construction on the REST client: the
verb, the resource, the namespace (if one was set), the resource name (empty if
none was set) and the body (if one was set). -/
structure Request where
  client : RESTClient
  verb : String
  resource : String := ""
  namespaceSet : Bool := false
  namespaceName : String := ""
  resourceName : String := ""
  body : Option Example := none
deriving DecidableEq, Repr

/-- Modelled from the spec: `RESTClient.Get`, which starts a GET request. -/
def RESTClient.Get (c : RESTClient) : Request := { client := c, verb := "GET" }

/-- Modelled from the spec: `RESTClient.Post`, which starts a POST request. -/
def RESTClient.Post (c : RESTClient) : Request := { client := c, verb := "POST" }

/-- Modelled from the spec: `Request.Resource`, which sets the resource. -/
def Request.Resource (r : Request) (resource : String) : Request :=
  { r with resource := resource }

/-- Modelled from the spec: `Request.Namespace`, which scopes the request to a
namespace. -/
def Request.Namespace (r : Request) (ns : String) : Request :=
  { r with namespaceSet := true, namespaceName := ns }

/-- Modelled from the spec: `Request.Name`, which sets the resource name. -/
def Request.Name (r : Request) (resourceName : String) : Request :=
  { r with resourceName := resourceName }

/-- Modelled from the spec: `Request.Body`, which sets the request body. -/
def Request.Body (r : Request) (obj : Example) : Request :=
  { r with body := some obj }

/-- Modelled from the spec: the path a request targets, of the form
`/apis/k8s.io/v1/namespaces/<ns>/examples[/<name>]`: the client's path prefix,
group and version, the namespace segment when a namespace is set, the resource,
and the name when one is set. -/
def Request.path (r : Request) : String :=
  let gv := r.client.config.GroupVersion.getD ⟨"", ""⟩
  r.client.config.APIPath ++ "/" ++ gv.Group ++ "/" ++ gv.Version
    ++ (if r.namespaceSet && r.namespaceName != "" then "/namespaces/" ++ r.namespaceName else "")
    ++ "/" ++ r.resource
    ++ (if r.resourceName != "" then "/" ++ r.resourceName else "")

/-! ## Program state -/

/-- A pointer to a `rest.Config` on the heap. -/
abbrev Ptr := Nat

/-- The heap of `rest.Config` objects: the next free address and the contents of
each address. -/
structure Heap where
  next : Ptr
  cell : Ptr → Config

/-- A value returned by a library call or printed by the program. -/
inductive Val where
  | config (p : Ptr)
  | clientset (c : Clientset)
  | restClient (c : RESTClient)
  | tpr (t : ThirdPartyResource)
  | exampleObj (e : Example)
  | exampleList (l : ExampleList)
deriving DecidableEq, Repr

/-- A call into the client library. -/
inductive Call where
  | InClusterConfig
  | BuildConfigFromFlags (masterUrl kubeconfigPath : String)
  | NewForConfig (config : Ptr)
  | tprGet (name : String)
  | tprCreate (obj : ThirdPartyResource)
  | RESTClientFor (config : Ptr)
  | request (r : Request)
deriving DecidableEq, Repr

deriving instance DecidableEq for Except

/-- One entry of the trace of a run: a call and what it returned. -/
structure Entry where
  call : Call
  res : Except Err Val
deriving DecidableEq

/-- One line written to standard output by `fmt.Printf`: the literal text in
front of the `%#v` verb and the value printed for it. -/
structure OutLine where
  text : String
  arg : Val
deriving DecidableEq, Repr

/-- The state of a run: the world outside the program (API server, files), the
heap of configurations, the global scheme `api.Scheme`, the calls made so far,
the lines printed so far, and the value the program panicked with, if any. -/
structure St (σ : Type) where
  world : σ
  heap : Heap
  scheme : Scheme
  trace : List Entry
  out : List OutLine
  panicked : Option Err

/-- The state in which `main` starts: nothing allocated, called or printed. -/
def St.init {σ : Type} (w : σ) (scheme : Scheme) (dflt : Config) : St σ :=
  { world := w, heap := ⟨0, fun _ => dflt⟩, scheme := scheme, trace := [], out := [],
    panicked := none }

/-- The answers of the client library and of the API server behind it, each a
function of the current world state. -/
structure Lib (σ : Type) where
  InClusterConfig : σ → Except Err Config × σ
  BuildConfigFromFlags : String → String → σ → Except Err Config × σ
  NewForConfig : Config → σ → Option Err × σ
  tprGet : Clientset → String → σ → Except Err ThirdPartyResource × σ
  tprCreate : Clientset → ThirdPartyResource → σ → Except Err ThirdPartyResource × σ
  RESTClientFor : Config → σ → Option Err × σ
  DoExample : Request → σ → Except Err Example × σ
  DoExampleList : Request → σ → Except Err ExampleList × σ

/-! ## The library calls the program makes

Each call asks `Lib` for its answer in the current world state and appends the
call and its answer to the trace. -/

/-- Record a call and its answer, and move the world to its new state. -/
def St.log {σ : Type} (s : St σ) (c : Call) (r : Except Err Val) (w : σ) : St σ :=
  { s with world := w, trace := s.trace ++ [⟨c, r⟩] }

/-- Allocate a configuration at a fresh address. -/
def St.alloc {σ : Type} (s : St σ) (c : Config) : Ptr × St σ :=
  (s.heap.next, { s with heap := ⟨s.heap.next + 1, Function.update s.heap.cell s.heap.next c⟩ })

/-- Assign through a configuration pointer: `*p = f(*p)`. -/
def St.modify {σ : Type} (s : St σ) (p : Ptr) (f : Config → Config) : St σ :=
  { s with heap := ⟨s.heap.next, Function.update s.heap.cell p (f (s.heap.cell p))⟩ }

/-- The program panics with `err`: nothing more is called or printed. -/
def panic {σ : Type} (err : Err) (s : St σ) : St σ :=
  { s with panicked := some err }

namespace fmt

/-- Append lines to standard output. -/
def Printf {σ : Type} (lines : List OutLine) (s : St σ) : St σ :=
  { s with out := s.out ++ lines }

end fmt

namespace rest

/-- The call `rest.InClusterConfig()`: on success a pointer to a new
configuration. -/
def InClusterConfig {σ : Type} (L : Lib σ) (s : St σ) : Except Err Ptr × St σ :=
  match L.InClusterConfig s.world with
  | (.error err, w) => (.error err, s.log .InClusterConfig (.error err) w)
  | (.ok c, w) =>
    let (p, s) := s.alloc c
    (.ok p, s.log .InClusterConfig (.ok (.config p)) w)

/-- The call `rest.RESTClientFor(config)`: on success a REST client built from
the configuration `config` points to. -/
def RESTClientFor {σ : Type} (L : Lib σ) (config : Ptr) (s : St σ) :
    Except Err RESTClient × St σ :=
  match L.RESTClientFor (s.heap.cell config) s.world with
  | (some err, w) => (.error err, s.log (.RESTClientFor config) (.error err) w)
  | (none, w) =>
    let c : RESTClient := ⟨s.heap.cell config⟩
    (.ok c, s.log (.RESTClientFor config) (.ok (.restClient c)) w)

end rest

namespace clientcmd

/-- The call `clientcmd.BuildConfigFromFlags(masterUrl, kubeconfigPath)`: on
success a pointer to a new configuration. -/
def BuildConfigFromFlags {σ : Type} (L : Lib σ) (masterUrl kubeconfigPath : String)
    (s : St σ) : Except Err Ptr × St σ :=
  match L.BuildConfigFromFlags masterUrl kubeconfigPath s.world with
  | (.error err, w) =>
    (.error err, s.log (.BuildConfigFromFlags masterUrl kubeconfigPath) (.error err) w)
  | (.ok c, w) =>
    let (p, s) := s.alloc c
    (.ok p, s.log (.BuildConfigFromFlags masterUrl kubeconfigPath) (.ok (.config p)) w)

end clientcmd

namespace kubernetes

/-- The call `kubernetes.NewForConfig(config)`: on success a clientset built from
the configuration `config` points to. -/
def NewForConfig {σ : Type} (L : Lib σ) (config : Ptr) (s : St σ) :
    Except Err Clientset × St σ :=
  match L.NewForConfig (s.heap.cell config) s.world with
  | (some err, w) => (.error err, s.log (.NewForConfig config) (.error err) w)
  | (none, w) =>
    let c : Clientset := ⟨s.heap.cell config⟩
    (.ok c, s.log (.NewForConfig config) (.ok (.clientset c)) w)

end kubernetes

namespace ThirdPartyResources

/-- The call `clientset.Extensions().ThirdPartyResources().Get(name, opts)`. -/
def Get {σ : Type} (L : Lib σ) (clientset : Clientset) (name : String) (s : St σ) :
    Except Err ThirdPartyResource × St σ :=
  match L.tprGet clientset name s.world with
  | (.error err, w) => (.error err, s.log (.tprGet name) (.error err) w)
  | (.ok t, w) => (.ok t, s.log (.tprGet name) (.ok (.tpr t)) w)

/-- The call `clientset.Extensions().ThirdPartyResources().Create(obj)`. -/
def Create {σ : Type} (L : Lib σ) (clientset : Clientset) (obj : ThirdPartyResource)
    (s : St σ) : Except Err ThirdPartyResource × St σ :=
  match L.tprCreate clientset obj s.world with
  | (.error err, w) => (.error err, s.log (.tprCreate obj) (.error err) w)
  | (.ok t, w) => (.ok t, s.log (.tprCreate obj) (.ok (.tpr t)) w)

end ThirdPartyResources

/-- The calls `r.Do().Into(&example)`: send the request and decode the response
into an `Example`. -/
def Request.DoIntoExample {σ : Type} (L : Lib σ) (r : Request) (s : St σ) :
    Except Err Example × St σ :=
  match L.DoExample r s.world with
  | (.error err, w) => (.error err, s.log (.request r) (.error err) w)
  | (.ok e, w) => (.ok e, s.log (.request r) (.ok (.exampleObj e)) w)

/-- The calls `r.Do().Into(&exampleList)`: send the request and decode the
response into an `ExampleList`. -/
def Request.DoIntoExampleList {σ : Type} (L : Lib σ) (r : Request) (s : St σ) :
    Except Err ExampleList × St σ :=
  match L.DoExampleList r s.world with
  | (.error err, w) => (.error err, s.log (.request r) (.error err) w)
  | (.ok l, w) => (.ok l, s.log (.request r) (.ok (.exampleList l)) w)

/-! ## The program -/

/-- The function `buildConfig` (lines 126-131). -/
def buildConfig {σ : Type} (L : Lib σ) (kubeconfig : String) (s : St σ) :
    Except Err Ptr × St σ :=
  if kubeconfig != "" then
    clientcmd.BuildConfigFromFlags L "" kubeconfig s
  else
    rest.InClusterConfig L s

/-- The function `configureClient` (lines 133-156): four assignments through the
pointer `config`, then the registration of four types into `api.Scheme`; the
error returned by `AddToScheme` is dropped. -/
def configureClient {σ : Type} (config : Ptr) (s : St σ) : St σ :=
  let groupversion : GroupVersion := { Group := "k8s.io", Version := "v1" }
  let s := s.modify config (fun c => { c with GroupVersion := some groupversion })
  let s := s.modify config (fun c => { c with APIPath := "/apis" })
  let s := s.modify config (fun c => { c with ContentType := runtime.ContentTypeJSON })
  let s := s.modify config (fun c =>
    { c with NegotiatedSerializer := some (.DirectCodecFactory api.Codecs) })
  let schemeBuilder := runtime.NewSchemeBuilder [
    fun scheme =>
      (none, runtime.AddKnownTypes scheme groupversion
        [⟨"main", "Example"⟩, ⟨"main", "ExampleList"⟩,
         ⟨"api", "ListOptions"⟩, ⟨"api", "DeleteOptions"⟩])]
  { s with scheme := (schemeBuilder.AddToScheme s.scheme).2 }

/-- Lines 117-124 of `main`: fetch the list of instances and print it. -/
def mainList {σ : Type} (L : Lib σ) (tprclient : RESTClient) (s : St σ) : St σ :=
  match ((tprclient.Get).Resource "examples").DoIntoExampleList L s with
  | (.error err, s) => panic err s
  | (.ok exampleList, s) => fmt.Printf [⟨"LIST: ", .exampleList exampleList⟩] s

/-- Lines 68-115 of `main`, followed by the list step: derive the configuration
for the API group of the extension, build the REST client, and make sure the
instance exists.  Line 70, `tprconfig = config`, assigns a pointer.  The variable
`example` of line 78 and the one of line 89 are both written `example_`. -/
def mainInstance {σ : Type} (L : Lib σ) (config : Ptr) (s : St σ) : St σ :=
  let tprconfig : Ptr := config
  let s := configureClient tprconfig s
  match rest.RESTClientFor L tprconfig s with
  | (.error err, s) => panic err s
  | (.ok tprclient, s) =>
  match ((((tprclient.Get).Resource "examples").Namespace api.NamespaceDefault).Name
      "example1").DoIntoExample L s with
  | (.error err, s) =>
    if errors.IsNotFound err then
      let example_ : Example :=
        { Metadata := { Name := "example1" }, Spec := { Foo := "hello", Bar := true } }
      match ((((tprclient.Post).Resource "examples").Namespace api.NamespaceDefault).Body
          example_).DoIntoExample L s with
      | (.error err, s) => panic err s
      | (.ok result, s) => mainList L tprclient (fmt.Printf [⟨"CREATED: ", .exampleObj result⟩] s)
    else
      panic err s
  | (.ok example_, s) => mainList L tprclient (fmt.Printf [⟨"GET: ", .exampleObj example_⟩] s)

/-- The function `main` (lines 27-124), with the value of the `--kubeconfig` flag
as argument.  Lines 68-124 are `mainInstance` and `mainList`.  The local `config`
declared at line 32 hides the package-level variable of lines 23-25, which is never
assigned.  Each `panic(err)` ends the run. -/
def main {σ : Type} (L : Lib σ) (kubeconfig : String) (s : St σ) : St σ :=
  match buildConfig L kubeconfig s with
  | (.error err, s) => panic err s
  | (.ok config, s) =>
  match kubernetes.NewForConfig L config s with
  | (.error err, s) => panic err s
  | (.ok clientset, s) =>
  match ThirdPartyResources.Get L clientset "example.k8s.io" s with
  | (.error err, s) =>
    if errors.IsNotFound err then
      let tpr : ThirdPartyResource :=
        { ObjectMeta := { Name := "example.k8s.io" },
          Versions := [{ Name := "v1" }],
          Description := "An Example ThirdPartyResource" }
      match ThirdPartyResources.Create L clientset tpr s with
      | (.error err, s) => panic err s
      | (.ok result, s) =>
        mainInstance L config (fmt.Printf [⟨"CREATED: ", .tpr result⟩, ⟨"FROM: ", .tpr tpr⟩] s)
    else
      panic err s
  | (.ok tpr, s) =>
    mainInstance L config (fmt.Printf [⟨"SKIPPING: already exists ", .tpr tpr⟩] s)

/-! ## Vocabulary for stating properties of a run -/

/-- The registration `main` builds at lines 46-54. -/
def exampleTPR : ThirdPartyResource :=
  { ObjectMeta := { Name := "example.k8s.io" },
    Versions := [{ Name := "v1" }],
    Description := "An Example ThirdPartyResource" }

/-- The instance `main` builds at lines 89-97. -/
def example1 : Example :=
  { Metadata := { Name := "example1" }, Spec := { Foo := "hello", Bar := true } }

/-- The request of lines 80-84: get the instance `example1`. -/
def instanceGet (c : RESTClient) : Request :=
  (((c.Get).Resource "examples").Namespace api.NamespaceDefault).Name "example1"

/-- The request of lines 100-104: create the instance. -/
def instancePost (c : RESTClient) : Request :=
  (((c.Post).Resource "examples").Namespace api.NamespaceDefault).Body example1

/-- The request of line 119: list the instances. -/
def listGet (c : RESTClient) : Request :=
  (c.Get).Resource "examples"

/-- The library call by which `buildConfig` resolves the configuration. -/
def buildCall (kubeconfig : String) : Call :=
  if kubeconfig != "" then .BuildConfigFromFlags "" kubeconfig else .InClusterConfig

/-- The call is a ThirdPartyResource creation request. -/
def Call.isTprCreate : Call → Bool
  | .tprCreate _ => true
  | _ => false

/-- The call is a creation (POST) request through the REST client. -/
def Call.isPost : Call → Bool
  | .request r => r.verb == "POST"
  | _ => false

/-- The call is a Get through the REST client with no name: a list request. -/
def Call.isList : Call → Bool
  | .request r => r.verb == "GET" && r.resourceName == ""
  | _ => false

/-- The call is one of the two Gets of a named object: the ThirdPartyResource Get or
the instance Get. -/
def Call.isNamedGet : Call → Bool
  | .tprGet _ => true
  | .request r => r.verb == "GET" && r.resourceName != ""
  | _ => false

/-- The call is a request to the API server. -/
def Call.isRequest : Call → Bool
  | .tprGet _ => true
  | .tprCreate _ => true
  | .request _ => true
  | _ => false

/-- The entry is a call that returned an error other than a not-found error from
one of the two Gets of a named object. -/
def Entry.fatal (en : Entry) : Bool :=
  match en.res with
  | .ok _ => false
  | .error err => !(en.call.isNamedGet && errors.IsNotFound err)

/-- The fields `configureClient` assigns hold the values it assigns. -/
def Configured (c : Config) : Prop :=
  c.GroupVersion = some { Group := "k8s.io", Version := "v1" } ∧ c.APIPath = "/apis" ∧
    c.ContentType = runtime.ContentTypeJSON ∧
    c.NegotiatedSerializer = some (.DirectCodecFactory api.Codecs)

/-- The result `res` of a configuration resolution started in state `s` is the
answer `ans` of the single library call `c`: the world is the one the call left;
the trace grew by this one call; an error answer is returned as it is and
allocates nothing; a configuration answer is returned as a pointer to a newly
allocated cell that holds it. -/
def ReturnsAnswer {σ : Type} (res : Except Err Ptr × St σ) (s : St σ) (c : Call)
    (ans : Except Err Config × σ) : Prop :=
  res.2.world = ans.2 ∧
  match ans.1 with
  | .error e =>
    res.1 = .error e ∧ res.2.trace = s.trace ++ [⟨c, .error e⟩] ∧
      res.2.heap.next = s.heap.next ∧ ∀ q, res.2.heap.cell q = s.heap.cell q
  | .ok cfg =>
    res.1 = .ok s.heap.next ∧ res.2.trace = s.trace ++ [⟨c, .ok (.config s.heap.next)⟩] ∧
      res.2.heap.next = s.heap.next + 1 ∧ res.2.heap.cell s.heap.next = cfg ∧
      ∀ q, q ≠ s.heap.next → res.2.heap.cell q = s.heap.cell q

/-- What the list step (lines 117-124) calls and prints, and how it ends. -/
inductive ListRun (c : RESTClient) : List Entry → List OutLine → Option Err → Prop
  | failed (e : Err) :
      ListRun c [⟨.request (listGet c), .error e⟩] [] (some e)
  | listed (l : ExampleList) :
      ListRun c [⟨.request (listGet c), .ok (.exampleList l)⟩]
        [⟨"LIST: ", .exampleList l⟩] none

/-- What lines 68-124 call and print, and how they end. -/
inductive InstanceRun (p : Ptr) : List Entry → List OutLine → Option Err → Prop
  | clientFailed (e : Err) :
      InstanceRun p [⟨.RESTClientFor p, .error e⟩] [] (some e)
  | getFailed (c : RESTClient) (hc : Configured c.config) (e : Err)
      (he : errors.IsNotFound e = false) :
      InstanceRun p [⟨.RESTClientFor p, .ok (.restClient c)⟩,
        ⟨.request (instanceGet c), .error e⟩] [] (some e)
  | postFailed (c : RESTClient) (hc : Configured c.config) (e : Err)
      (he : errors.IsNotFound e = true) (e2 : Err) :
      InstanceRun p [⟨.RESTClientFor p, .ok (.restClient c)⟩,
        ⟨.request (instanceGet c), .error e⟩,
        ⟨.request (instancePost c), .error e2⟩] [] (some e2)
  | created (c : RESTClient) (hc : Configured c.config) (e : Err)
      (he : errors.IsNotFound e = true) (result : Example)
      {t : List Entry} {o : List OutLine} {q : Option Err} (hl : ListRun c t o q) :
      InstanceRun p ([⟨.RESTClientFor p, .ok (.restClient c)⟩,
        ⟨.request (instanceGet c), .error e⟩,
        ⟨.request (instancePost c), .ok (.exampleObj result)⟩] ++ t)
        ([⟨"CREATED: ", .exampleObj result⟩] ++ o) q
  | fetched (c : RESTClient) (hc : Configured c.config) (ex : Example)
      {t : List Entry} {o : List OutLine} {q : Option Err} (hl : ListRun c t o q) :
      InstanceRun p ([⟨.RESTClientFor p, .ok (.restClient c)⟩,
        ⟨.request (instanceGet c), .ok (.exampleObj ex)⟩] ++ t)
        ([⟨"GET: ", .exampleObj ex⟩] ++ o) q

/-- What a whole run of `main` calls and prints, and how it ends. -/
inductive MainRun (kubeconfig : String) : List Entry → List OutLine → Option Err → Prop
  | configFailed (e : Err) :
      MainRun kubeconfig [⟨buildCall kubeconfig, .error e⟩] [] (some e)
  | clientsetFailed (p : Ptr) (e : Err) :
      MainRun kubeconfig [⟨buildCall kubeconfig, .ok (.config p)⟩,
        ⟨.NewForConfig p, .error e⟩] [] (some e)
  | tprGetFailed (p : Ptr) (cs : Clientset) (e : Err) (he : errors.IsNotFound e = false) :
      MainRun kubeconfig [⟨buildCall kubeconfig, .ok (.config p)⟩,
        ⟨.NewForConfig p, .ok (.clientset cs)⟩,
        ⟨.tprGet "example.k8s.io", .error e⟩] [] (some e)
  | tprCreateFailed (p : Ptr) (cs : Clientset) (e : Err) (he : errors.IsNotFound e = true)
      (e2 : Err) :
      MainRun kubeconfig [⟨buildCall kubeconfig, .ok (.config p)⟩,
        ⟨.NewForConfig p, .ok (.clientset cs)⟩,
        ⟨.tprGet "example.k8s.io", .error e⟩,
        ⟨.tprCreate exampleTPR, .error e2⟩] [] (some e2)
  | registered (p : Ptr) (cs : Clientset) (e : Err) (he : errors.IsNotFound e = true)
      (result : ThirdPartyResource)
      {t : List Entry} {o : List OutLine} {q : Option Err} (hi : InstanceRun p t o q) :
      MainRun kubeconfig ([⟨buildCall kubeconfig, .ok (.config p)⟩,
        ⟨.NewForConfig p, .ok (.clientset cs)⟩,
        ⟨.tprGet "example.k8s.io", .error e⟩,
        ⟨.tprCreate exampleTPR, .ok (.tpr result)⟩] ++ t)
        ([⟨"CREATED: ", .tpr result⟩, ⟨"FROM: ", .tpr exampleTPR⟩] ++ o) q
  | skipped (p : Ptr) (cs : Clientset) (tpr : ThirdPartyResource)
      {t : List Entry} {o : List OutLine} {q : Option Err} (hi : InstanceRun p t o q) :
      MainRun kubeconfig ([⟨buildCall kubeconfig, .ok (.config p)⟩,
        ⟨.NewForConfig p, .ok (.clientset cs)⟩,
        ⟨.tprGet "example.k8s.io", .ok (.tpr tpr)⟩] ++ t)
        ([⟨"SKIPPING: already exists ", .tpr tpr⟩] ++ o) q

/-- The printed line starts with the text `pre`. -/
def OutLine.startsWith (line : OutLine) (pre : String) : Bool :=
  pre.data.isPrefixOf line.text.data

/-! ## A concrete library and API server, for evaluating runs -/

/-- The state of a small API server: the registrations and instances it stores. -/
structure Server where
  tprs : List ThirdPartyResource
  examples : List Example
deriving DecidableEq, Repr

/-- The zero value of `rest.Config`, which fills the heap before anything is
allocated. -/
def zeroConfig : Config :=
  { Host := "", APIPath := "", GroupVersion := none, ContentType := "",
    NegotiatedSerializer := none, Username := "", Password := "", BearerToken := "",
    Insecure := false }

/-- A configuration as in-cluster resolution returns it, before `configureClient`:
host and bearer token set, and APIPath, GroupVersion, ContentType and
NegotiatedSerializer left at their zero values. -/
def baseConfig : Config :=
  { Host := "https://10.0.0.1:443", APIPath := "", GroupVersion := none,
    ContentType := "", NegotiatedSerializer := none, Username := "", Password := "",
    BearerToken := "token", Insecure := false }

/-- The configuration `baseConfig` after `configureClient`. -/
def configuredBase : Config :=
  { baseConfig with
    GroupVersion := some { Group := "k8s.io", Version := "v1" }
    APIPath := "/apis"
    ContentType := runtime.ContentTypeJSON
    NegotiatedSerializer := some (.DirectCodecFactory api.Codecs) }

/-- A library over the small API server: configuration resolution answers
`inCluster` and `fromFile`; clients are always constructed; objects are looked up
by name, created by appending, and listed in order. -/
def serverLib (inCluster fromFile : Except Err Config) : Lib Server where
  InClusterConfig w := (inCluster, w)
  BuildConfigFromFlags _ _ w := (fromFile, w)
  NewForConfig _ w := (none, w)
  tprGet _ name w :=
    match w.tprs.find? (fun t => t.ObjectMeta.Name == name) with
    | some t => (.ok t, w)
    | none => (.error (.notFound name), w)
  tprCreate _ obj w := (.ok obj, { w with tprs := w.tprs ++ [obj] })
  RESTClientFor _ w := (none, w)
  DoExample r w :=
    if r.verb == "POST" then
      match r.body with
      | some e => (.ok e, { w with examples := w.examples ++ [e] })
      | none => (.error (.other "no body"), w)
    else
      match w.examples.find? (fun e => e.Metadata.Name == r.resourceName) with
      | some e => (.ok e, w)
      | none => (.error (.notFound r.resourceName), w)
  DoExampleList _ w := (.ok ⟨w.examples⟩, w)

/-- A library whose server answers every Get of a ThirdPartyResource with a
server error. -/
def brokenLib : Lib Server :=
  { serverLib (.ok baseConfig) (.ok baseConfig) with
    tprGet := fun _ _ w => (.error (.other "internal server error"), w) }

/-- A server that stores nothing yet. -/
def emptyServer : Server := { tprs := [], examples := [] }

/-- The registration as a server stores it. -/
def storedTPR : ThirdPartyResource :=
  { exampleTPR with ObjectMeta := { Name := "example.k8s.io", UID := "u1" } }

/-- The instance as a server stores it. -/
def storedExample : Example :=
  { example1 with Metadata := { Name := "example1", Namespace := "default", UID := "u2" } }

/-- A server that already stores the registration and the instance. -/
def fullServer : Server := { tprs := [storedTPR], examples := [storedExample] }

/-- A server that stores the registration but no instance. -/
def tprOnlyServer : Server := { tprs := [storedTPR], examples := [] }

/-- A server that stores the instance but not the registration. -/
def instanceOnlyServer : Server := { tprs := [], examples := [storedExample] }

/-- The run of `main` against the small API server in state `w`, with in-cluster
resolution answering `baseConfig`. -/
def demoRun (kubeconfig : String) (w : Server) : St Server :=
  main (serverLib (.ok baseConfig) (.error (.other "no such file"))) kubeconfig
    (St.init w [] zeroConfig)

/-! ## How the program runs -/

section Runs

variable {σ : Type}

@[simp]
theorem log_trace (s : St σ) (c : Call) (r : Except Err Val) (w : σ) :
    (s.log c r w).trace = s.trace ++ [⟨c, r⟩] := rfl

@[simp]
theorem log_out (s : St σ) (c : Call) (r : Except Err Val) (w : σ) :
    (s.log c r w).out = s.out := rfl

@[simp]
theorem log_panicked (s : St σ) (c : Call) (r : Except Err Val) (w : σ) :
    (s.log c r w).panicked = s.panicked := rfl

@[simp]
theorem log_heap (s : St σ) (c : Call) (r : Except Err Val) (w : σ) :
    (s.log c r w).heap = s.heap := rfl

@[simp]
theorem alloc_trace (s : St σ) (c : Config) : (s.alloc c).2.trace = s.trace := rfl

@[simp]
theorem alloc_out (s : St σ) (c : Config) : (s.alloc c).2.out = s.out := rfl

@[simp]
theorem alloc_panicked (s : St σ) (c : Config) :
    (s.alloc c).2.panicked = s.panicked := rfl

@[simp]
theorem panic_trace (e : Err) (s : St σ) : (panic e s).trace = s.trace := rfl

@[simp]
theorem panic_out (e : Err) (s : St σ) : (panic e s).out = s.out := rfl

@[simp]
theorem panic_panicked (e : Err) (s : St σ) : (panic e s).panicked = some e := rfl

@[simp]
theorem Printf_trace (l : List OutLine) (s : St σ) :
    (fmt.Printf l s).trace = s.trace := rfl

@[simp]
theorem Printf_out (l : List OutLine) (s : St σ) :
    (fmt.Printf l s).out = s.out ++ l := rfl

@[simp]
theorem Printf_panicked (l : List OutLine) (s : St σ) :
    (fmt.Printf l s).panicked = s.panicked := rfl

@[simp]
theorem configureClient_trace (p : Ptr) (s : St σ) :
    (configureClient p s).trace = s.trace := rfl

@[simp]
theorem configureClient_out (p : Ptr) (s : St σ) :
    (configureClient p s).out = s.out := rfl

@[simp]
theorem configureClient_panicked (p : Ptr) (s : St σ) :
    (configureClient p s).panicked = s.panicked := rfl

theorem configureClient_cell (p : Ptr) (s : St σ) :
    (configureClient p s).heap.cell p =
      { s.heap.cell p with
        GroupVersion := some { Group := "k8s.io", Version := "v1" }
        APIPath := "/apis"
        ContentType := runtime.ContentTypeJSON
        NegotiatedSerializer := some (.DirectCodecFactory api.Codecs) } := by
  simp [configureClient, St.modify]

theorem configureClient_configured (p : Ptr) (s : St σ) :
    Configured ((configureClient p s).heap.cell p) := by
  rw [configureClient_cell]
  exact ⟨rfl, rfl, rfl, rfl⟩

theorem buildConfig_cases (L : Lib σ) (kubeconfig : String) (s : St σ) :
    (∃ e w, buildConfig L kubeconfig s = (.error e, s.log (buildCall kubeconfig) (.error e) w)) ∨
    (∃ c w, buildConfig L kubeconfig s =
      (.ok s.heap.next, (s.alloc c).2.log (buildCall kubeconfig) (.ok (.config s.heap.next)) w)) := by
  unfold buildConfig buildCall
  split
  · unfold clientcmd.BuildConfigFromFlags
    rcases L.BuildConfigFromFlags "" kubeconfig s.world with ⟨r, w⟩
    cases r with
    | error e => exact .inl ⟨e, w, rfl⟩
    | ok c => exact .inr ⟨c, w, rfl⟩
  · unfold rest.InClusterConfig
    rcases L.InClusterConfig s.world with ⟨r, w⟩
    cases r with
    | error e => exact .inl ⟨e, w, rfl⟩
    | ok c => exact .inr ⟨c, w, rfl⟩

theorem NewForConfig_cases (L : Lib σ) (p : Ptr) (s : St σ) :
    (∃ e w, kubernetes.NewForConfig L p s = (.error e, s.log (.NewForConfig p) (.error e) w)) ∨
    (∃ cs w, kubernetes.NewForConfig L p s =
      (.ok cs, s.log (.NewForConfig p) (.ok (.clientset cs)) w)) := by
  unfold kubernetes.NewForConfig
  rcases L.NewForConfig (s.heap.cell p) s.world with ⟨r, w⟩
  cases r with
  | some e => exact .inl ⟨e, w, rfl⟩
  | none => exact .inr ⟨_, w, rfl⟩

theorem RESTClientFor_cases (L : Lib σ) (p : Ptr) (s : St σ) :
    (∃ e w, rest.RESTClientFor L p s = (.error e, s.log (.RESTClientFor p) (.error e) w)) ∨
    (∃ w, rest.RESTClientFor L p s =
      (.ok ⟨s.heap.cell p⟩, s.log (.RESTClientFor p) (.ok (.restClient ⟨s.heap.cell p⟩)) w)) := by
  unfold rest.RESTClientFor
  rcases L.RESTClientFor (s.heap.cell p) s.world with ⟨r, w⟩
  cases r with
  | some e => exact .inl ⟨e, w, rfl⟩
  | none => exact .inr ⟨w, rfl⟩

theorem tprGet_cases (L : Lib σ) (cs : Clientset) (name : String) (s : St σ) :
    (∃ e w, ThirdPartyResources.Get L cs name s = (.error e, s.log (.tprGet name) (.error e) w)) ∨
    (∃ t w, ThirdPartyResources.Get L cs name s =
      (.ok t, s.log (.tprGet name) (.ok (.tpr t)) w)) := by
  unfold ThirdPartyResources.Get
  rcases L.tprGet cs name s.world with ⟨r, w⟩
  cases r with
  | error e => exact .inl ⟨e, w, rfl⟩
  | ok t => exact .inr ⟨t, w, rfl⟩

theorem tprCreate_cases (L : Lib σ) (cs : Clientset) (obj : ThirdPartyResource) (s : St σ) :
    (∃ e w, ThirdPartyResources.Create L cs obj s =
      (.error e, s.log (.tprCreate obj) (.error e) w)) ∨
    (∃ t w, ThirdPartyResources.Create L cs obj s =
      (.ok t, s.log (.tprCreate obj) (.ok (.tpr t)) w)) := by
  unfold ThirdPartyResources.Create
  rcases L.tprCreate cs obj s.world with ⟨r, w⟩
  cases r with
  | error e => exact .inl ⟨e, w, rfl⟩
  | ok t => exact .inr ⟨t, w, rfl⟩

theorem DoIntoExample_cases (L : Lib σ) (r : Request) (s : St σ) :
    (∃ e w, r.DoIntoExample L s = (.error e, s.log (.request r) (.error e) w)) ∨
    (∃ x w, r.DoIntoExample L s = (.ok x, s.log (.request r) (.ok (.exampleObj x)) w)) := by
  unfold Request.DoIntoExample
  rcases L.DoExample r s.world with ⟨res, w⟩
  cases res with
  | error e => exact .inl ⟨e, w, rfl⟩
  | ok x => exact .inr ⟨x, w, rfl⟩

theorem DoIntoExampleList_cases (L : Lib σ) (r : Request) (s : St σ) :
    (∃ e w, r.DoIntoExampleList L s = (.error e, s.log (.request r) (.error e) w)) ∨
    (∃ l w, r.DoIntoExampleList L s = (.ok l, s.log (.request r) (.ok (.exampleList l)) w)) := by
  unfold Request.DoIntoExampleList
  rcases L.DoExampleList r s.world with ⟨res, w⟩
  cases res with
  | error e => exact .inl ⟨e, w, rfl⟩
  | ok l => exact .inr ⟨l, w, rfl⟩

theorem mainList_run (L : Lib σ) (c : RESTClient) (s : St σ) (hs : s.panicked = none) :
    ∃ t o q, ListRun c t o q ∧ (mainList L c s).trace = s.trace ++ t ∧
      (mainList L c s).out = s.out ++ o ∧ (mainList L c s).panicked = q := by
  unfold mainList
  rcases DoIntoExampleList_cases L ((c.Get).Resource "examples") s with ⟨e, w, h⟩ | ⟨l, w, h⟩
  · rw [h]
    exact ⟨_, _, _, .failed e, by simp [listGet], by simp, by simp⟩
  · rw [h]
    exact ⟨_, _, _, .listed l, by simp [listGet], by simp, by simp [hs]⟩

theorem mainInstance_run (L : Lib σ) (p : Ptr) (s : St σ) (hs : s.panicked = none) :
    ∃ t o q, InstanceRun p t o q ∧ (mainInstance L p s).trace = s.trace ++ t ∧
      (mainInstance L p s).out = s.out ++ o ∧ (mainInstance L p s).panicked = q := by
  unfold mainInstance
  simp only []
  rcases RESTClientFor_cases L p (configureClient p s) with ⟨e, w, h⟩ | ⟨w, h⟩
  · rw [h]
    exact ⟨_, _, _, .clientFailed e, by simp, by simp, by simp⟩
  · rw [h]
    simp only []
    have hc : Configured (⟨(configureClient p s).heap.cell p⟩ : RESTClient).config :=
      configureClient_configured p s
    generalize (⟨(configureClient p s).heap.cell p⟩ : RESTClient) = c at hc ⊢
    rcases DoIntoExample_cases L
      ((((c.Get).Resource "examples").Namespace api.NamespaceDefault).Name "example1")
      ((configureClient p s).log (.RESTClientFor p) (.ok (.restClient c)) w)
      with ⟨e, w1, h1⟩ | ⟨x, w1, h1⟩
    · rw [h1]
      simp only []
      cases he : errors.IsNotFound e
      · simp only [Bool.false_eq_true, ↓reduceIte]
        exact ⟨_, _, _, .getFailed c hc e he, by simp [instanceGet], by simp, by simp⟩
      · simp only [↓reduceIte]
        rcases DoIntoExample_cases L
          ((((c.Post).Resource "examples").Namespace api.NamespaceDefault).Body
            { Metadata := { Name := "example1" }, Spec := { Foo := "hello", Bar := true } })
          (((configureClient p s).log (.RESTClientFor p) (.ok (.restClient c)) w).log
            (.request ((((c.Get).Resource "examples").Namespace api.NamespaceDefault).Name
              "example1")) (.error e) w1)
          with ⟨e2, w2, h2⟩ | ⟨result, w2, h2⟩
        · rw [h2]
          exact ⟨_, _, _, .postFailed c hc e he e2, by simp [instanceGet, instancePost, example1],
            by simp, by simp⟩
        · rw [h2]
          simp only []
          obtain ⟨t, o, q, hl, ht, ho, hq⟩ := mainList_run L c
            (fmt.Printf [⟨"CREATED: ", .exampleObj result⟩]
              ((((configureClient p s).log (.RESTClientFor p) (.ok (.restClient c)) w).log
                (.request ((((c.Get).Resource "examples").Namespace api.NamespaceDefault).Name
                  "example1")) (.error e) w1).log
                (.request ((((c.Post).Resource "examples").Namespace api.NamespaceDefault).Body
                  { Metadata := { Name := "example1" }, Spec := { Foo := "hello", Bar := true } }))
                (.ok (.exampleObj result)) w2)) (by simp [hs])
          exact ⟨_, _, _, .created c hc e he result hl,
            by rw [ht]; simp [instanceGet, instancePost, example1],
            by rw [ho]; simp, hq⟩
    · rw [h1]
      simp only []
      obtain ⟨t, o, q, hl, ht, ho, hq⟩ := mainList_run L c
        (fmt.Printf [⟨"GET: ", .exampleObj x⟩]
          (((configureClient p s).log (.RESTClientFor p) (.ok (.restClient c)) w).log
            (.request ((((c.Get).Resource "examples").Namespace api.NamespaceDefault).Name
              "example1")) (.ok (.exampleObj x)) w1)) (by simp [hs])
      exact ⟨_, _, _, .fetched c hc x hl,
        by rw [ht]; simp [instanceGet],
        by rw [ho]; simp, hq⟩

theorem main_run_from (L : Lib σ) (kubeconfig : String) (s : St σ) (hs : s.panicked = none) :
    ∃ t o q, MainRun kubeconfig t o q ∧ (main L kubeconfig s).trace = s.trace ++ t ∧
      (main L kubeconfig s).out = s.out ++ o ∧ (main L kubeconfig s).panicked = q := by
  unfold main
  rcases buildConfig_cases L kubeconfig s with ⟨e, w, h⟩ | ⟨c, w, h⟩
  · rw [h]
    exact ⟨_, _, _, .configFailed e, by simp, by simp, by simp⟩
  · rw [h]
    simp only []
    generalize hs0 : (s.alloc c).2.log (buildCall kubeconfig) (.ok (.config s.heap.next)) w = s0
    have t0 : s0.trace = s.trace ++ [⟨buildCall kubeconfig, .ok (.config s.heap.next)⟩] := by
      rw [← hs0]; simp
    have o0 : s0.out = s.out := by rw [← hs0]; simp
    have p0 : s0.panicked = none := by rw [← hs0]; simp [hs]
    generalize s.heap.next = p at t0 ⊢
    rcases NewForConfig_cases L p s0 with ⟨e, w1, h1⟩ | ⟨cs, w1, h1⟩
    · rw [h1]
      exact ⟨_, _, _, .clientsetFailed p e, by simp [t0], by simp [o0], by simp⟩
    · rw [h1]
      simp only []
      rcases tprGet_cases L cs "example.k8s.io" (s0.log (.NewForConfig p) (.ok (.clientset cs)) w1)
        with ⟨e, w2, h2⟩ | ⟨tpr, w2, h2⟩
      · rw [h2]
        simp only []
        cases he : errors.IsNotFound e
        · simp only [Bool.false_eq_true, ↓reduceIte]
          exact ⟨_, _, _, .tprGetFailed p cs e he, by simp [t0], by simp [o0], by simp⟩
        · simp only [↓reduceIte]
          rcases tprCreate_cases L cs
            { ObjectMeta := { Name := "example.k8s.io" }, Versions := [{ Name := "v1" }],
              Description := "An Example ThirdPartyResource" }
            ((s0.log (.NewForConfig p) (.ok (.clientset cs)) w1).log (.tprGet "example.k8s.io")
              (.error e) w2) with ⟨e2, w3, h3⟩ | ⟨result, w3, h3⟩
          · rw [h3]
            exact ⟨_, _, _, .tprCreateFailed p cs e he e2, by simp [t0, exampleTPR],
              by simp [o0], by simp⟩
          · rw [h3]
            simp only []
            obtain ⟨t, o, q, hi, ht, ho, hq⟩ := mainInstance_run L p
              (fmt.Printf [⟨"CREATED: ", .tpr result⟩, ⟨"FROM: ", .tpr exampleTPR⟩]
                (((s0.log (.NewForConfig p) (.ok (.clientset cs)) w1).log
                  (.tprGet "example.k8s.io") (.error e) w2).log
                  (.tprCreate exampleTPR) (.ok (.tpr result)) w3)) (by simp [p0])
            exact ⟨_, _, _, .registered p cs e he result hi,
              ht.trans (by simp [t0]), ho.trans (by simp [o0]), hq⟩
      · rw [h2]
        simp only []
        obtain ⟨t, o, q, hi, ht, ho, hq⟩ := mainInstance_run L p
          (fmt.Printf [⟨"SKIPPING: already exists ", .tpr tpr⟩]
            ((s0.log (.NewForConfig p) (.ok (.clientset cs)) w1).log
              (.tprGet "example.k8s.io") (.ok (.tpr tpr)) w2)) (by simp [p0])
        exact ⟨_, _, _, .skipped p cs tpr hi,
          by rw [ht]; simp [t0],
          by rw [ho]; simp [o0], hq⟩

/-- Every run of `main` from the initial state has one of the shapes of `MainRun`. -/
theorem main_run (L : Lib σ) (kubeconfig : String) (w : σ) (scheme : Scheme) (dflt : Config) :
    ∃ t o q, MainRun kubeconfig t o q ∧
      (main L kubeconfig (St.init w scheme dflt)).trace = t ∧
      (main L kubeconfig (St.init w scheme dflt)).out = o ∧
      (main L kubeconfig (St.init w scheme dflt)).panicked = q := by
  obtain ⟨t, o, q, h, ht, ho, hq⟩ := main_run_from L kubeconfig (St.init w scheme dflt) rfl
  exact ⟨t, o, q, h, by rw [ht]; rfl, by rw [ho]; rfl, hq⟩

end Runs

section Claims

variable {σ : Type}

@[simp]
theorem buildCall_isTprCreate (k : String) : (buildCall k).isTprCreate = false := by
  unfold buildCall; split <;> rfl

@[simp]
theorem buildCall_isPost (k : String) : (buildCall k).isPost = false := by
  unfold buildCall; split <;> rfl

@[simp]
theorem buildCall_isList (k : String) : (buildCall k).isList = false := by
  unfold buildCall; split <;> rfl

@[simp]
theorem buildCall_isNamedGet (k : String) : (buildCall k).isNamedGet = false := by
  unfold buildCall; split <;> rfl

@[simp]
theorem buildCall_isRequest (k : String) : (buildCall k).isRequest = false := by
  unfold buildCall; split <;> rfl

@[simp]
theorem buildCall_ne_tprGet (k name : String) : buildCall k ≠ .tprGet name := by
  unfold buildCall; split <;> simp

@[simp]
theorem tprGet_ne_buildCall (k name : String) : Call.tprGet name ≠ buildCall k := by
  unfold buildCall; split <;> simp

@[simp]
theorem buildCall_ne_tprCreate (k : String) (obj : ThirdPartyResource) :
    buildCall k ≠ .tprCreate obj := by
  unfold buildCall; split <;> simp

@[simp]
theorem tprCreate_ne_buildCall (k : String) (obj : ThirdPartyResource) :
    Call.tprCreate obj ≠ buildCall k := by
  unfold buildCall; split <;> simp

@[simp]
theorem buildCall_ne_request (k : String) (r : Request) : buildCall k ≠ .request r := by
  unfold buildCall; split <;> simp

@[simp]
theorem request_ne_buildCall (k : String) (r : Request) : Call.request r ≠ buildCall k := by
  unfold buildCall; split <;> simp

@[simp]
theorem startsWith_created (v : Val) :
    (OutLine.mk "CREATED: " v).startsWith "CREATED:" = true := rfl

@[simp]
theorem startsWith_skipping_created (v : Val) :
    (OutLine.mk "CREATED: " v).startsWith "SKIPPING" = false := rfl

@[simp]
theorem startsWith_skipping_from (v : Val) :
    (OutLine.mk "FROM: " v).startsWith "SKIPPING" = false := rfl

@[simp]
theorem startsWith_skipping_get (v : Val) :
    (OutLine.mk "GET: " v).startsWith "SKIPPING" = false := rfl

@[simp]
theorem startsWith_skipping_list (v : Val) :
    (OutLine.mk "LIST: " v).startsWith "SKIPPING" = false := rfl

/-- C1: in every run of `main` in which the Get of the ThirdPartyResource named
"example.k8s.io" returns a not-found error, exactly one ThirdPartyResource
creation request is issued, for an object with name "example.k8s.io", the single
version "v1" and the description "An Example ThirdPartyResource"; and if that
creation succeeds, a line starting "CREATED:" reports the created object and no
line starts "SKIPPING". -/
theorem registration_absent_created_once (L : Lib σ) (kubeconfig : String) (w : σ)
    (scheme : Scheme) (dflt : Config) (err : Err)
    (hget : ⟨.tprGet "example.k8s.io", .error err⟩ ∈
      (main L kubeconfig (St.init w scheme dflt)).trace)
    (hnf : errors.IsNotFound err = true) :
    ∃ obj : ThirdPartyResource,
      ((main L kubeconfig (St.init w scheme dflt)).trace.map Entry.call).filter
          Call.isTprCreate = [.tprCreate obj] ∧
      obj.ObjectMeta.Name = "example.k8s.io" ∧ obj.Versions = [{ Name := "v1" }] ∧
      obj.Description = "An Example ThirdPartyResource" ∧
      ∀ result, ⟨.tprCreate obj, .ok (.tpr result)⟩ ∈
          (main L kubeconfig (St.init w scheme dflt)).trace →
        (∃ line ∈ (main L kubeconfig (St.init w scheme dflt)).out,
          line.startsWith "CREATED:" = true ∧ line.arg = .tpr result) ∧
        ∀ line ∈ (main L kubeconfig (St.init w scheme dflt)).out,
          line.startsWith "SKIPPING" = false := by
  obtain ⟨t, o, q, h, ht, ho, hq⟩ := main_run L kubeconfig w scheme dflt
  rw [ht] at hget
  rw [ht, ho]
  refine ⟨exampleTPR, ?_, rfl, rfl, rfl, ?_⟩
  · cases h with
    | registered p cs e he result hi =>
      cases hi with
      | created c hc e1 he1 r hl => cases hl <;> simp [List.filter, Call.isTprCreate]
      | fetched c hc ex hl => cases hl <;> simp [List.filter, Call.isTprCreate]
      | _ => simp [List.filter, Call.isTprCreate]
    | skipped p cs tpr hi =>
      cases hi with
      | created c hc e1 he1 r hl => cases hl <;> simp at hget
      | fetched c hc ex hl => cases hl <;> simp at hget
      | _ => simp at hget
    | tprGetFailed p cs e he => simp at hget; simp [← hget, hnf] at he
    | tprCreateFailed p cs e he e2 => simp [List.filter, Call.isTprCreate]
    | _ => simp at hget
  · intro result hres
    cases h with
    | registered p cs e he result hi =>
      cases hi with
      | created c hc e1 he1 r hl => cases hl <;> simp_all
      | fetched c hc ex hl => cases hl <;> simp_all
      | _ => simp_all
    | skipped p cs tpr hi =>
      cases hi with
      | created c hc e1 he1 r hl => cases hl <;> simp at hget
      | fetched c hc ex hl => cases hl <;> simp at hget
      | _ => simp at hget
    | _ => simp_all

/-- C2: in every run of `main` in which the Get of the ThirdPartyResource named
"example.k8s.io" succeeds, no ThirdPartyResource creation request is issued during
the whole run, and the output has the line "SKIPPING: already exists " followed by
the fetched object. -/
theorem registration_present_skipped (L : Lib σ) (kubeconfig : String) (w : σ)
    (scheme : Scheme) (dflt : Config) (tpr : ThirdPartyResource)
    (hget : ⟨.tprGet "example.k8s.io", .ok (.tpr tpr)⟩ ∈
      (main L kubeconfig (St.init w scheme dflt)).trace) :
    (∀ en ∈ (main L kubeconfig (St.init w scheme dflt)).trace, en.call.isTprCreate = false) ∧
      ⟨"SKIPPING: already exists ", .tpr tpr⟩ ∈ (main L kubeconfig (St.init w scheme dflt)).out ∧
      ∀ line ∈ (main L kubeconfig (St.init w scheme dflt)).out,
        line.startsWith "CREATED:" = true → ∀ t, line.arg ≠ .tpr t := by
  obtain ⟨t, o, q, h, ht, ho, hq⟩ := main_run L kubeconfig w scheme dflt
  rw [ht] at hget
  rw [ht, ho]
  cases h with
  | registered p cs e he result hi =>
    cases hi with
    | created c hc e1 he1 r hl => cases hl <;> simp at hget
    | fetched c hc ex hl => cases hl <;> simp at hget
    | _ => simp at hget
  | skipped p cs tpr hi =>
    cases hi with
    | created c hc e1 he1 r hl => cases hl <;> simp_all +decide [Call.isTprCreate, OutLine.startsWith]
    | fetched c hc ex hl => cases hl <;> simp_all +decide [Call.isTprCreate, OutLine.startsWith]
    | _ => simp_all +decide [Call.isTprCreate, OutLine.startsWith]
  | _ => simp at hget

/-- C3: in every run of `main` in which the Get of resource "examples", name
"example1", in the default namespace returns a not-found error, exactly one
creation (POST) request is issued; it is for resource "examples" in the default
namespace and its body is an Example with metadata name "example1" and spec
Foo = "hello", Bar = true; and if that creation succeeds, the object printed after
"CREATED: " is the instance returned for that request, and no other instance is
printed so. -/
theorem instance_absent_created_once (L : Lib σ) (kubeconfig : String) (w : σ)
    (scheme : Scheme) (dflt : Config) (r : Request) (err : Err)
    (hget : ⟨.request r, .error err⟩ ∈ (main L kubeconfig (St.init w scheme dflt)).trace)
    (hr : r.verb = "GET" ∧ r.resource = "examples" ∧ r.resourceName = "example1" ∧
      r.namespaceSet = true ∧ r.namespaceName = "default")
    (hnf : errors.IsNotFound err = true) :
    ∃ post : Request,
      ((main L kubeconfig (St.init w scheme dflt)).trace.map Entry.call).filter
          Call.isPost = [.request post] ∧
      post.verb = "POST" ∧ post.resource = "examples" ∧ post.namespaceSet = true ∧
      post.namespaceName = "default" ∧ post.resourceName = "" ∧
      post.body = some { Metadata := { Name := "example1" },
                         Spec := { Foo := "hello", Bar := true } } ∧
      ∀ result, ⟨.request post, .ok (.exampleObj result)⟩ ∈
          (main L kubeconfig (St.init w scheme dflt)).trace →
        ⟨"CREATED: ", .exampleObj result⟩ ∈ (main L kubeconfig (St.init w scheme dflt)).out ∧
        ∀ x, ⟨"CREATED: ", .exampleObj x⟩ ∈ (main L kubeconfig (St.init w scheme dflt)).out →
          x = result := by
  obtain ⟨t, o, q, h, ht, ho, hq⟩ := main_run L kubeconfig w scheme dflt
  rw [ht] at hget
  rw [ht, ho]
  cases h with
  | registered p cs e he result hi =>
    cases hi with
    | created c hc e1 he1 res hl =>
      cases hl <;> refine ⟨instancePost c, ?_⟩ <;>
        simp_all +decide [List.filter, Call.isPost, instanceGet, instancePost, listGet,
          RESTClient.Get, RESTClient.Post, Request.Resource, Request.Namespace, Request.Name,
          Request.Body, api.NamespaceDefault, example1]
    | postFailed c hc e1 he1 e2 =>
      refine ⟨instancePost c, ?_⟩
      simp_all +decide [List.filter, Call.isPost, instanceGet, instancePost, listGet,
        RESTClient.Get, RESTClient.Post, Request.Resource, Request.Namespace, Request.Name,
        Request.Body, api.NamespaceDefault, example1]
    | fetched c hc ex hl =>
      cases hl <;>
        simp_all +decide [List.filter, Call.isPost, instanceGet, instancePost, listGet,
          RESTClient.Get, RESTClient.Post, Request.Resource, Request.Namespace, Request.Name,
          Request.Body, api.NamespaceDefault, example1]
    | _ => simp_all
  | skipped p cs tpr hi =>
    cases hi with
    | created c hc e1 he1 res hl =>
      cases hl <;> refine ⟨instancePost c, ?_⟩ <;>
        simp_all +decide [List.filter, Call.isPost, instanceGet, instancePost, listGet,
          RESTClient.Get, RESTClient.Post, Request.Resource, Request.Namespace, Request.Name,
          Request.Body, api.NamespaceDefault, example1]
    | postFailed c hc e1 he1 e2 =>
      refine ⟨instancePost c, ?_⟩
      simp_all +decide [List.filter, Call.isPost, instanceGet, instancePost, listGet,
        RESTClient.Get, RESTClient.Post, Request.Resource, Request.Namespace, Request.Name,
        Request.Body, api.NamespaceDefault, example1]
    | fetched c hc ex hl =>
      cases hl <;>
        simp_all +decide [List.filter, Call.isPost, instanceGet, instancePost, listGet,
          RESTClient.Get, RESTClient.Post, Request.Resource, Request.Namespace, Request.Name,
          Request.Body, api.NamespaceDefault, example1]
    | _ => simp_all
  | _ => simp_all

/-- C4: in every run of `main` in which the Get of instance "example1" in the
default namespace succeeds, no creation (POST) request is issued during the whole
run, and the object printed after "GET: " is exactly the instance decoded from
that Get response. -/
theorem instance_present_fetched (L : Lib σ) (kubeconfig : String) (w : σ)
    (scheme : Scheme) (dflt : Config) (r : Request) (ex : Example)
    (hget : ⟨.request r, .ok (.exampleObj ex)⟩ ∈
      (main L kubeconfig (St.init w scheme dflt)).trace)
    (hr : r.verb = "GET" ∧ r.resource = "examples" ∧ r.resourceName = "example1" ∧
      r.namespaceSet = true ∧ r.namespaceName = "default") :
    (∀ en ∈ (main L kubeconfig (St.init w scheme dflt)).trace, en.call.isPost = false) ∧
      ⟨"GET: ", .exampleObj ex⟩ ∈ (main L kubeconfig (St.init w scheme dflt)).out ∧
      ∀ line ∈ (main L kubeconfig (St.init w scheme dflt)).out,
        line.text = "GET: " → line.arg = .exampleObj ex := by
  obtain ⟨t, o, q, h, ht, ho, hq⟩ := main_run L kubeconfig w scheme dflt
  rw [ht] at hget
  rw [ht, ho]
  cases h with
  | registered p cs e he result hi =>
    cases hi with
    | created c hc e1 he1 res hl =>
      cases hl <;>
        simp_all +decide [List.filter, Call.isPost, Call.isList, Call.isNamedGet,
          instanceGet, instancePost, listGet, RESTClient.Get, RESTClient.Post, Request.Resource,
          Request.Namespace, Request.Name, Request.Body, api.NamespaceDefault, example1,
          Entry.fatal]
    | fetched c hc ex hl =>
      cases hl <;>
        simp_all +decide [List.filter, Call.isPost, Call.isList, Call.isNamedGet,
          instanceGet, instancePost, listGet, RESTClient.Get, RESTClient.Post, Request.Resource,
          Request.Namespace, Request.Name, Request.Body, api.NamespaceDefault, example1,
          Entry.fatal]
    | _ => simp_all
  | skipped p cs tpr hi =>
    cases hi with
    | created c hc e1 he1 res hl =>
      cases hl <;>
        simp_all +decide [List.filter, Call.isPost, Call.isList, Call.isNamedGet,
          instanceGet, instancePost, listGet, RESTClient.Get, RESTClient.Post, Request.Resource,
          Request.Namespace, Request.Name, Request.Body, api.NamespaceDefault, example1,
          Entry.fatal]
    | fetched c hc ex hl =>
      cases hl <;>
        simp_all +decide [List.filter, Call.isPost, Call.isList, Call.isNamedGet,
          instanceGet, instancePost, listGet, RESTClient.Get, RESTClient.Post, Request.Resource,
          Request.Namespace, Request.Name, Request.Body, api.NamespaceDefault, example1,
          Entry.fatal]
    | _ => simp_all
  | _ => simp_all

/-- C5: in every run of `main` in which no step before the list step fails fatally
(whether the registration was created or skipped, and whether the instance was
created or fetched), exactly one Get on resource "examples" with no name is
issued, it is the last call of the run, and when it succeeds the last line
printed is "LIST: " followed by exactly the ExampleList decoded from its
response, and no earlier line is a "LIST: " line. -/
theorem list_step_once (L : Lib σ) (kubeconfig : String) (w : σ)
    (scheme : Scheme) (dflt : Config)
    (hpre : ∀ en ∈ (main L kubeconfig (St.init w scheme dflt)).trace,
      en.call.isList = false → en.fatal = false) :
    ∃ (r : Request) (res : Except Err Val) (before : List Entry),
      (main L kubeconfig (St.init w scheme dflt)).trace = before ++ [⟨.request r, res⟩] ∧
      r.verb = "GET" ∧ r.resource = "examples" ∧ r.resourceName = "" ∧
      ((main L kubeconfig (St.init w scheme dflt)).trace.map Entry.call).filter Call.isList =
        [.request r] ∧
      ∀ l, res = .ok (.exampleList l) →
        ∃ printed, (main L kubeconfig (St.init w scheme dflt)).out =
            printed ++ [⟨"LIST: ", .exampleList l⟩] ∧
          ∀ line ∈ printed, line.text ≠ "LIST: " := by
  obtain ⟨t, o, q, h, ht, ho, hq⟩ := main_run L kubeconfig w scheme dflt
  rw [ht] at hpre
  rw [ht, ho]
  cases h with
  | registered p cs e he result hi =>
    cases hi with
    | created c hc e1 he1 res hl =>
      cases hl with
      | failed e3 =>
        refine ⟨listGet c, .error e3, _, (List.append_assoc _ _ _).symm, rfl, rfl, rfl, ?_, ?_⟩
        · simp +decide [List.filter, Call.isPost, Call.isList, Call.isNamedGet,
          instanceGet, instancePost, listGet, RESTClient.Get, RESTClient.Post, Request.Resource,
          Request.Namespace, Request.Name, Request.Body, api.NamespaceDefault, example1,
          Entry.fatal]
        · simp
      | listed l =>
        refine ⟨listGet c, .ok (.exampleList l), _, (List.append_assoc _ _ _).symm, rfl, rfl, rfl,
          ?_, ?_⟩
        · simp +decide [List.filter, Call.isPost, Call.isList, Call.isNamedGet,
          instanceGet, instancePost, listGet, RESTClient.Get, RESTClient.Post, Request.Resource,
          Request.Namespace, Request.Name, Request.Body, api.NamespaceDefault, example1,
          Entry.fatal]
        · intro l1 hl1
          simp only [Except.ok.injEq, Val.exampleList.injEq] at hl1
          subst hl1
          exact ⟨_, (List.append_assoc _ _ _).symm, by simp +decide⟩
    | fetched c hc ex hl =>
      cases hl with
      | failed e3 =>
        refine ⟨listGet c, .error e3, _, (List.append_assoc _ _ _).symm, rfl, rfl, rfl, ?_, ?_⟩
        · simp +decide [List.filter, Call.isPost, Call.isList, Call.isNamedGet,
          instanceGet, instancePost, listGet, RESTClient.Get, RESTClient.Post, Request.Resource,
          Request.Namespace, Request.Name, Request.Body, api.NamespaceDefault, example1,
          Entry.fatal]
        · simp
      | listed l =>
        refine ⟨listGet c, .ok (.exampleList l), _, (List.append_assoc _ _ _).symm, rfl, rfl, rfl,
          ?_, ?_⟩
        · simp +decide [List.filter, Call.isPost, Call.isList, Call.isNamedGet,
          instanceGet, instancePost, listGet, RESTClient.Get, RESTClient.Post, Request.Resource,
          Request.Namespace, Request.Name, Request.Body, api.NamespaceDefault, example1,
          Entry.fatal]
        · intro l1 hl1
          simp only [Except.ok.injEq, Val.exampleList.injEq] at hl1
          subst hl1
          exact ⟨_, (List.append_assoc _ _ _).symm, by simp +decide⟩
    | _ => simp_all +decide [List.filter, Call.isPost, Call.isList, Call.isNamedGet,
          instanceGet, instancePost, listGet, RESTClient.Get, RESTClient.Post, Request.Resource,
          Request.Namespace, Request.Name, Request.Body, api.NamespaceDefault, example1,
          Entry.fatal]
  | skipped p cs tpr hi =>
    cases hi with
    | created c hc e1 he1 res hl =>
      cases hl with
      | failed e3 =>
        refine ⟨listGet c, .error e3, _, (List.append_assoc _ _ _).symm, rfl, rfl, rfl, ?_, ?_⟩
        · simp +decide [List.filter, Call.isPost, Call.isList, Call.isNamedGet,
          instanceGet, instancePost, listGet, RESTClient.Get, RESTClient.Post, Request.Resource,
          Request.Namespace, Request.Name, Request.Body, api.NamespaceDefault, example1,
          Entry.fatal]
        · simp
      | listed l =>
        refine ⟨listGet c, .ok (.exampleList l), _, (List.append_assoc _ _ _).symm, rfl, rfl, rfl,
          ?_, ?_⟩
        · simp +decide [List.filter, Call.isPost, Call.isList, Call.isNamedGet,
          instanceGet, instancePost, listGet, RESTClient.Get, RESTClient.Post, Request.Resource,
          Request.Namespace, Request.Name, Request.Body, api.NamespaceDefault, example1,
          Entry.fatal]
        · intro l1 hl1
          simp only [Except.ok.injEq, Val.exampleList.injEq] at hl1
          subst hl1
          exact ⟨_, (List.append_assoc _ _ _).symm, by simp +decide⟩
    | fetched c hc ex hl =>
      cases hl with
      | failed e3 =>
        refine ⟨listGet c, .error e3, _, (List.append_assoc _ _ _).symm, rfl, rfl, rfl, ?_, ?_⟩
        · simp +decide [List.filter, Call.isPost, Call.isList, Call.isNamedGet,
          instanceGet, instancePost, listGet, RESTClient.Get, RESTClient.Post, Request.Resource,
          Request.Namespace, Request.Name, Request.Body, api.NamespaceDefault, example1,
          Entry.fatal]
        · simp
      | listed l =>
        refine ⟨listGet c, .ok (.exampleList l), _, (List.append_assoc _ _ _).symm, rfl, rfl, rfl,
          ?_, ?_⟩
        · simp +decide [List.filter, Call.isPost, Call.isList, Call.isNamedGet,
          instanceGet, instancePost, listGet, RESTClient.Get, RESTClient.Post, Request.Resource,
          Request.Namespace, Request.Name, Request.Body, api.NamespaceDefault, example1,
          Entry.fatal]
        · intro l1 hl1
          simp only [Except.ok.injEq, Val.exampleList.injEq] at hl1
          subst hl1
          exact ⟨_, (List.append_assoc _ _ _).symm, by simp +decide⟩
    | _ => simp_all +decide [List.filter, Call.isPost, Call.isList, Call.isNamedGet,
          instanceGet, instancePost, listGet, RESTClient.Get, RESTClient.Post, Request.Resource,
          Request.Namespace, Request.Name, Request.Body, api.NamespaceDefault, example1,
          Entry.fatal]
  | _ => simp_all +decide [List.filter, Call.isPost, Call.isList, Call.isNamedGet,
          instanceGet, instancePost, listGet, RESTClient.Get, RESTClient.Post, Request.Resource,
          Request.Namespace, Request.Name, Request.Body, api.NamespaceDefault, example1,
          Entry.fatal]

theorem MainRun.dropLast_not_fatal {k : String} {t : List Entry} {o : List OutLine}
    {q : Option Err} (h : MainRun k t o q) : ∀ en ∈ t.dropLast, en.fatal = false := by
  cases h with
  | registered p cs e he result hi =>
    cases hi with
    | created c hc e1 he1 res hl =>
      cases hl <;>
        simp_all +decide [List.filter, Call.isPost, Call.isList, Call.isNamedGet,
          instanceGet, instancePost, listGet, RESTClient.Get, RESTClient.Post, Request.Resource,
          Request.Namespace, Request.Name, Request.Body, api.NamespaceDefault, example1,
          Entry.fatal]
    | fetched c hc ex hl =>
      cases hl <;>
        simp_all +decide [List.filter, Call.isPost, Call.isList, Call.isNamedGet,
          instanceGet, instancePost, listGet, RESTClient.Get, RESTClient.Post, Request.Resource,
          Request.Namespace, Request.Name, Request.Body, api.NamespaceDefault, example1,
          Entry.fatal]
    | _ => simp_all +decide [List.filter, Call.isPost, Call.isList, Call.isNamedGet,
          instanceGet, instancePost, listGet, RESTClient.Get, RESTClient.Post, Request.Resource,
          Request.Namespace, Request.Name, Request.Body, api.NamespaceDefault, example1,
          Entry.fatal]
  | skipped p cs tpr hi =>
    cases hi with
    | created c hc e1 he1 res hl =>
      cases hl <;>
        simp_all +decide [List.filter, Call.isPost, Call.isList, Call.isNamedGet,
          instanceGet, instancePost, listGet, RESTClient.Get, RESTClient.Post, Request.Resource,
          Request.Namespace, Request.Name, Request.Body, api.NamespaceDefault, example1,
          Entry.fatal]
    | fetched c hc ex hl =>
      cases hl <;>
        simp_all +decide [List.filter, Call.isPost, Call.isList, Call.isNamedGet,
          instanceGet, instancePost, listGet, RESTClient.Get, RESTClient.Post, Request.Resource,
          Request.Namespace, Request.Name, Request.Body, api.NamespaceDefault, example1,
          Entry.fatal]
    | _ => simp_all +decide [List.filter, Call.isPost, Call.isList, Call.isNamedGet,
          instanceGet, instancePost, listGet, RESTClient.Get, RESTClient.Post, Request.Resource,
          Request.Namespace, Request.Name, Request.Body, api.NamespaceDefault, example1,
          Entry.fatal]
  | _ => simp_all +decide [List.filter, Call.isPost, Call.isList, Call.isNamedGet,
          instanceGet, instancePost, listGet, RESTClient.Get, RESTClient.Post, Request.Resource,
          Request.Namespace, Request.Name, Request.Body, api.NamespaceDefault, example1,
          Entry.fatal]

theorem MainRun.last_error {k : String} {t : List Entry} {o : List OutLine}
    {q : Option Err} (h : MainRun k t o q) (c : Call) (e : Err)
    (hlast : t.getLast? = some ⟨c, .error e⟩) : q = some e := by
  cases h with
  | registered p cs e he result hi =>
    cases hi with
    | created c hc e1 he1 res hl => cases hl <;> simp_all
    | fetched c hc ex hl => cases hl <;> simp_all
    | _ => simp_all
  | skipped p cs tpr hi =>
    cases hi with
    | created c hc e1 he1 res hl => cases hl <;> simp_all
    | fetched c hc ex hl => cases hl <;> simp_all
    | _ => simp_all
  | _ => simp_all

theorem later_nil_of_dropLast {α : Type} (t earlier later : List α) (x : α)
    (hsplit : t = earlier ++ x :: later) (hx : x ∉ t.dropLast) : later = [] := by
  cases later with
  | nil => rfl
  | cons y ys =>
    exfalso
    apply hx
    rw [hsplit, List.dropLast_append_of_ne_nil _ (by simp), List.dropLast_cons₂]
    simp

/-- C6: in every run of `main`, a call that returns an error other than a not-found
error from one of the two Gets of a named object (the ThirdPartyResource Get or the
instance Get) is the last call of the run, and the program panics with that error:
no creation request, list request or any other call follows it. -/
theorem fail_fast (L : Lib σ) (kubeconfig : String) (w : σ) (scheme : Scheme) (dflt : Config)
    (earlier later : List Entry) (c : Call) (e : Err)
    (hsplit : (main L kubeconfig (St.init w scheme dflt)).trace =
      earlier ++ ⟨c, .error e⟩ :: later)
    (hfatal : (c.isNamedGet && errors.IsNotFound e) = false) :
    later = [] ∧ (main L kubeconfig (St.init w scheme dflt)).panicked = some e := by
  obtain ⟨t, o, q, h, ht, ho, hq⟩ := main_run L kubeconfig w scheme dflt
  rw [ht] at hsplit
  rw [hq]
  have hlater : later = [] := by
    apply later_nil_of_dropLast t earlier later ⟨c, .error e⟩ hsplit
    intro hmem
    have := h.dropLast_not_fatal _ hmem
    simp [Entry.fatal, hfatal] at this
  refine ⟨hlater, h.last_error c e ?_⟩
  rw [hsplit, hlater]
  simp

/-- C9 (amended): every request `main` issues through the custom-resource REST
client has resource "examples" and a client with path prefix "/apis", group
"k8s.io" and version "v1", and is one of three: the instance Get, in namespace
"default", to /apis/k8s.io/v1/namespaces/default/examples/example1; the creation
POST, in namespace "default", to /apis/k8s.io/v1/namespaces/default/examples; or
the list Get, with no namespace set, to /apis/k8s.io/v1/examples. -/
theorem rest_requests_target (L : Lib σ) (kubeconfig : String) (w : σ) (scheme : Scheme)
    (dflt : Config) (en : Entry) (r : Request)
    (hen : en ∈ (main L kubeconfig (St.init w scheme dflt)).trace)
    (hr : en.call = .request r) :
    r.resource = "examples" ∧ r.client.config.APIPath = "/apis" ∧
    r.client.config.GroupVersion = some { Group := "k8s.io", Version := "v1" } ∧
    ((r.verb = "GET" ∧ r.resourceName = "example1" ∧ r.namespaceSet = true ∧
        r.namespaceName = "default" ∧
        r.path = "/apis/k8s.io/v1/namespaces/default/examples/example1") ∨
     (r.verb = "POST" ∧ r.resourceName = "" ∧ r.namespaceSet = true ∧
        r.namespaceName = "default" ∧
        r.path = "/apis/k8s.io/v1/namespaces/default/examples") ∨
     (r.verb = "GET" ∧ r.resourceName = "" ∧ r.namespaceSet = false ∧
        r.path = "/apis/k8s.io/v1/examples")) := by
  obtain ⟨t, o, q, h, ht, ho, hq⟩ := main_run L kubeconfig w scheme dflt
  rw [ht] at hen
  have key : ∀ c : RESTClient, Configured c.config →
      r = instanceGet c ∨ r = instancePost c ∨ r = listGet c →
      r.resource = "examples" ∧ r.client.config.APIPath = "/apis" ∧
      r.client.config.GroupVersion = some { Group := "k8s.io", Version := "v1" } ∧
      ((r.verb = "GET" ∧ r.resourceName = "example1" ∧ r.namespaceSet = true ∧
          r.namespaceName = "default" ∧
          r.path = "/apis/k8s.io/v1/namespaces/default/examples/example1") ∨
       (r.verb = "POST" ∧ r.resourceName = "" ∧ r.namespaceSet = true ∧
          r.namespaceName = "default" ∧
          r.path = "/apis/k8s.io/v1/namespaces/default/examples") ∨
       (r.verb = "GET" ∧ r.resourceName = "" ∧ r.namespaceSet = false ∧
          r.path = "/apis/k8s.io/v1/examples")) := by
    intro c hc hcase
    obtain ⟨h1, h2, -, -⟩ := hc
    rcases hcase with rfl | rfl | rfl <;>
      simp +decide [instanceGet, instancePost, listGet, RESTClient.Get, RESTClient.Post,
        Request.Resource, Request.Namespace, Request.Name, Request.Body, api.NamespaceDefault,
        Request.path, h1, h2]
  obtain ⟨call, res⟩ := en
  simp only at hr
  subst hr
  cases h with
  | registered p cs e he result hi =>
    cases hi with
    | created c hc e1 he1 res hl => cases hl <;> (apply key c hc; simp at hen; tauto)
    | fetched c hc ex hl => cases hl <;> (apply key c hc; simp at hen; tauto)
    | getFailed c hc e1 he1 => apply key c hc; simp at hen; tauto
    | postFailed c hc e1 he1 e2 => apply key c hc; simp at hen; tauto
    | clientFailed e1 => simp at hen
  | skipped p cs tpr hi =>
    cases hi with
    | created c hc e1 he1 res hl => cases hl <;> (apply key c hc; simp at hen; tauto)
    | fetched c hc ex hl => cases hl <;> (apply key c hc; simp at hen; tauto)
    | getFailed c hc e1 he1 => apply key c hc; simp at hen; tauto
    | postFailed c hc e1 he1 e2 => apply key c hc; simp at hen; tauto
    | clientFailed e1 => simp at hen
  | _ => simp at hen

/-- C7 (amended): for every string `kubeconfig`, `buildConfig` makes one library
call and returns exactly its answer (configuration or error): in-cluster
resolution when `kubeconfig` is the empty string, file-based resolution with an
empty master URL and path `kubeconfig` when it is non-empty; so it fails exactly
when the one resolution selected by `kubeconfig` answers with an error. -/
theorem buildConfig_selects_source (L : Lib σ) (kubeconfig : String) (s : St σ) :
    (if kubeconfig = "" then
       ReturnsAnswer (buildConfig L kubeconfig s) s .InClusterConfig
         (L.InClusterConfig s.world)
     else
       ReturnsAnswer (buildConfig L kubeconfig s) s (.BuildConfigFromFlags "" kubeconfig)
         (L.BuildConfigFromFlags "" kubeconfig s.world)) ∧
    ((∃ e, (buildConfig L kubeconfig s).1 = .error e) ↔
      if kubeconfig = "" then ∃ e, (L.InClusterConfig s.world).1 = .error e
      else ∃ e, (L.BuildConfigFromFlags "" kubeconfig s.world).1 = .error e) := by
  unfold buildConfig
  by_cases hk : kubeconfig = ""
  · simp only [hk, bne_self_eq_false, Bool.false_eq_true, ↓reduceIte]
    unfold rest.InClusterConfig ReturnsAnswer
    rcases L.InClusterConfig s.world with ⟨r, w1⟩
    cases r with
    | error e => simp [St.log]
    | ok cfg =>
      simp only [St.log, St.alloc, Function.update_same, true_and, and_true, reduceCtorEq,
        exists_false, exists_const]
      exact fun q hq => Function.update_noteq hq _ _
  · simp only [bne_iff_ne, ne_eq, hk, not_false_eq_true, ↓reduceIte]
    unfold clientcmd.BuildConfigFromFlags ReturnsAnswer
    rcases L.BuildConfigFromFlags "" kubeconfig s.world with ⟨r, w1⟩
    cases r with
    | error e => simp [St.log]
    | ok cfg =>
      simp only [St.log, St.alloc, Function.update_same, true_and, and_true, reduceCtorEq,
        exists_false, exists_const]
      exact fun q hq => Function.update_noteq hq _ _

/-- C7 (as stated, refuted): with a non-empty `kubeconfig` whose file-based
resolution fails, `buildConfig` fails although in-cluster resolution would
succeed. -/
theorem buildConfig_fails_despite_in_cluster :
    (buildConfig (serverLib (.ok baseConfig) (.error (.other "no such file")))
        "missing.kubeconfig" (St.init emptyServer [] zeroConfig)).1 =
      .error (.other "no such file") ∧
    ((serverLib (.ok baseConfig) (.error (.other "no such file"))).InClusterConfig
        emptyServer).1 = .ok baseConfig := by
  decide

/-- C8: after `configureClient`, whatever the configuration held before, it has
GroupVersion k8s.io/v1, APIPath "/apis" and the JSON content type (and the direct
codec factory as serializer, its other fields unchanged); the types Example,
ExampleList, ListOptions and DeleteOptions are registered in the scheme under
k8s.io/v1; and a second call leaves the configuration as the first call made it. -/
theorem configureClient_sets_fields (p : Ptr) (s : St σ) :
    ((configureClient p s).heap.cell p).GroupVersion =
        some { Group := "k8s.io", Version := "v1" } ∧
    ((configureClient p s).heap.cell p).APIPath = "/apis" ∧
    ((configureClient p s).heap.cell p).ContentType = runtime.ContentTypeJSON ∧
    runtime.ContentTypeJSON = "application/json" ∧
    ((configureClient p s).heap.cell p).NegotiatedSerializer =
        some (.DirectCodecFactory api.Codecs) ∧
    ((configureClient p s).heap.cell p).Host = (s.heap.cell p).Host ∧
    ((configureClient p s).heap.cell p).Username = (s.heap.cell p).Username ∧
    ((configureClient p s).heap.cell p).Password = (s.heap.cell p).Password ∧
    ((configureClient p s).heap.cell p).BearerToken = (s.heap.cell p).BearerToken ∧
    ((configureClient p s).heap.cell p).Insecure = (s.heap.cell p).Insecure ∧
    (({ Group := "k8s.io", Version := "v1" }, ⟨"main", "Example"⟩) :
        GroupVersion × GoType) ∈ (configureClient p s).scheme ∧
    (({ Group := "k8s.io", Version := "v1" }, ⟨"main", "ExampleList"⟩) :
        GroupVersion × GoType) ∈ (configureClient p s).scheme ∧
    (({ Group := "k8s.io", Version := "v1" }, ⟨"api", "ListOptions"⟩) :
        GroupVersion × GoType) ∈ (configureClient p s).scheme ∧
    (({ Group := "k8s.io", Version := "v1" }, ⟨"api", "DeleteOptions"⟩) :
        GroupVersion × GoType) ∈ (configureClient p s).scheme ∧
    (configureClient p (configureClient p s)).heap.cell p = (configureClient p s).heap.cell p := by
  refine ⟨?_, ?_, ?_, rfl, ?_, ?_, ?_, ?_, ?_, ?_, ?_, ?_, ?_, ?_, ?_⟩
  all_goals first
    | rw [configureClient_cell, configureClient_cell]
    | rw [configureClient_cell]
    | simp [configureClient, St.modify, runtime.NewSchemeBuilder,
        runtime.SchemeBuilder.AddToScheme, runtime.AddKnownTypes]

@[simp]
theorem panic_heap (e : Err) (s : St σ) : (panic e s).heap = s.heap := rfl

@[simp]
theorem Printf_heap (l : List OutLine) (s : St σ) : (fmt.Printf l s).heap = s.heap := rfl

theorem mainList_heap (L : Lib σ) (c : RESTClient) (s : St σ) :
    (mainList L c s).heap = s.heap := by
  unfold mainList
  rcases DoIntoExampleList_cases L ((c.Get).Resource "examples") s with ⟨e, w, h⟩ | ⟨l, w, h⟩ <;>
    rw [h] <;> simp

theorem mainInstance_heap (L : Lib σ) (p : Ptr) (s : St σ) :
    (mainInstance L p s).heap = (configureClient p s).heap := by
  unfold mainInstance
  simp only []
  rcases RESTClientFor_cases L p (configureClient p s) with ⟨e, w, h⟩ | ⟨w, h⟩
  · rw [h]; simp
  · rw [h]
    simp only []
    generalize (⟨(configureClient p s).heap.cell p⟩ : RESTClient) = c
    rcases DoIntoExample_cases L
      ((((c.Get).Resource "examples").Namespace api.NamespaceDefault).Name "example1")
      ((configureClient p s).log (.RESTClientFor p) (.ok (.restClient c)) w)
      with ⟨e, w1, h1⟩ | ⟨x, w1, h1⟩
    · rw [h1]
      simp only []
      cases he : errors.IsNotFound e
      · simp
      · simp only [↓reduceIte]
        rcases DoIntoExample_cases L
          ((((c.Post).Resource "examples").Namespace api.NamespaceDefault).Body
            { Metadata := { Name := "example1" }, Spec := { Foo := "hello", Bar := true } })
          (((configureClient p s).log (.RESTClientFor p) (.ok (.restClient c)) w).log
            (.request ((((c.Get).Resource "examples").Namespace api.NamespaceDefault).Name
              "example1")) (.error e) w1)
          with ⟨e2, w2, h2⟩ | ⟨result, w2, h2⟩
        · rw [h2]; simp
        · rw [h2]; simp [mainList_heap]
    · rw [h1]; simp [mainList_heap]

/-- C10 (the code at the failing input): lines 68-124 allocate no second
configuration and overwrite the one `config` points to; in the run against the
empty server, `buildConfig` returns pointer 0 to a configuration with an empty
APIPath, no GroupVersion, an empty ContentType and no serializer, `RESTClientFor`
is called with that same pointer 0, and at the end of the run the configuration
at pointer 0 has APIPath "/apis", GroupVersion k8s.io/v1, the JSON content type
and a serializer, and it is the only configuration ever allocated. -/
theorem tprconfig_aliases_config :
    (∀ (τ : Type) (L : Lib τ) (config : Ptr) (s : St τ),
      (mainInstance L config s).heap.next = s.heap.next ∧
      Configured ((mainInstance L config s).heap.cell config)) ∧
    (demoRun "" emptyServer).trace.head? = some ⟨.InClusterConfig, .ok (.config 0)⟩ ∧
    baseConfig.APIPath = "" ∧ baseConfig.GroupVersion = none ∧
    baseConfig.ContentType = "" ∧ baseConfig.NegotiatedSerializer = none ∧
    (∃ c, (⟨.RESTClientFor 0, .ok (.restClient c)⟩ : Entry) ∈ (demoRun "" emptyServer).trace) ∧
    ((demoRun "" emptyServer).heap.cell 0).APIPath = "/apis" ∧
    ((demoRun "" emptyServer).heap.cell 0).GroupVersion =
      some { Group := "k8s.io", Version := "v1" } ∧
    ((demoRun "" emptyServer).heap.cell 0).ContentType = "application/json" ∧
    ((demoRun "" emptyServer).heap.cell 0).NegotiatedSerializer =
      some (.DirectCodecFactory api.Codecs) ∧
    (demoRun "" emptyServer).heap.next = 1 := by
  refine ⟨?_, by decide, rfl, rfl, rfl, rfl, ⟨⟨configuredBase⟩, by decide⟩, by decide, by decide,
    by decide, by decide, by decide⟩
  intro τ L config s
  rw [mainInstance_heap]
  exact ⟨rfl, configureClient_configured config s⟩

/-- C9 (as stated, refuted): in the run against the server that already stores the
registration and the instance, the list request is issued with no namespace set,
to the path /apis/k8s.io/v1/examples. -/
theorem list_request_has_no_namespace :
    (⟨.request (listGet ⟨configuredBase⟩), .ok (.exampleList ⟨fullServer.examples⟩)⟩ : Entry) ∈
      (demoRun "" fullServer).trace ∧
    (listGet ⟨configuredBase⟩).namespaceSet = false ∧
    (listGet ⟨configuredBase⟩).path = "/apis/k8s.io/v1/examples" := by
  decide

/-- The library of `demoRun`. -/
theorem demoRun_eq (kubeconfig : String) (w : Server) :
    demoRun kubeconfig w =
      main (serverLib (.ok baseConfig) (.error (.other "no such file"))) kubeconfig
        (St.init w [] zeroConfig) := rfl

/-- Witness of C1: the run against the empty server. -/
theorem registration_absent_created_once_witness :
    (⟨.tprGet "example.k8s.io", .error (.notFound "example.k8s.io")⟩ : Entry) ∈
      (demoRun "" emptyServer).trace ∧
    errors.IsNotFound (.notFound "example.k8s.io") = true ∧
    ∃ obj : ThirdPartyResource,
      ((demoRun "" emptyServer).trace.map Entry.call).filter Call.isTprCreate =
        [.tprCreate obj] ∧
      obj.ObjectMeta.Name = "example.k8s.io" ∧ obj.Versions = [{ Name := "v1" }] ∧
      obj.Description = "An Example ThirdPartyResource" :=
  ⟨by decide, rfl,
    (registration_absent_created_once (serverLib (.ok baseConfig) (.error (.other "no such file")))
      "" emptyServer [] zeroConfig (.notFound "example.k8s.io") (by decide) rfl).imp
      fun _ h => ⟨h.1, h.2.1, h.2.2.1, h.2.2.2.1⟩⟩

/-- Witness of C2: the run against the server that stores the registration. -/
theorem registration_present_skipped_witness :
    (⟨.tprGet "example.k8s.io", .ok (.tpr storedTPR)⟩ : Entry) ∈ (demoRun "" fullServer).trace ∧
    (∀ en ∈ (demoRun "" fullServer).trace, en.call.isTprCreate = false) ∧
    ⟨"SKIPPING: already exists ", .tpr storedTPR⟩ ∈ (demoRun "" fullServer).out :=
  ⟨by decide,
    (registration_present_skipped (serverLib (.ok baseConfig) (.error (.other "no such file")))
      "" fullServer [] zeroConfig storedTPR (by decide)).1,
    (registration_present_skipped (serverLib (.ok baseConfig) (.error (.other "no such file")))
      "" fullServer [] zeroConfig storedTPR (by decide)).2.1⟩

/-- Witness of C3: the run against the empty server. -/
theorem instance_absent_created_once_witness :
    (⟨.request (instanceGet ⟨configuredBase⟩), .error (.notFound "example1")⟩ : Entry) ∈
      (demoRun "" emptyServer).trace ∧
    ∃ post : Request,
      ((demoRun "" emptyServer).trace.map Entry.call).filter Call.isPost = [.request post] ∧
      post.body = some { Metadata := { Name := "example1" },
                         Spec := { Foo := "hello", Bar := true } } :=
  ⟨by decide,
    (instance_absent_created_once (serverLib (.ok baseConfig) (.error (.other "no such file")))
      "" emptyServer [] zeroConfig (instanceGet ⟨configuredBase⟩) (.notFound "example1")
      (by decide) ⟨rfl, rfl, rfl, rfl, rfl⟩ rfl).imp
      fun _ h => ⟨h.1, h.2.2.2.2.2.2.1⟩⟩

/-- Witness of C4: the run against the server that stores the instance. -/
theorem instance_present_fetched_witness :
    (⟨.request (instanceGet ⟨configuredBase⟩), .ok (.exampleObj storedExample)⟩ : Entry) ∈
      (demoRun "" fullServer).trace ∧
    (∀ en ∈ (demoRun "" fullServer).trace, en.call.isPost = false) ∧
    ⟨"GET: ", .exampleObj storedExample⟩ ∈ (demoRun "" fullServer).out :=
  ⟨by decide,
    (instance_present_fetched (serverLib (.ok baseConfig) (.error (.other "no such file")))
      "" fullServer [] zeroConfig (instanceGet ⟨configuredBase⟩) storedExample
      (by decide) ⟨rfl, rfl, rfl, rfl, rfl⟩).1,
    (instance_present_fetched (serverLib (.ok baseConfig) (.error (.other "no such file")))
      "" fullServer [] zeroConfig (instanceGet ⟨configuredBase⟩) storedExample
      (by decide) ⟨rfl, rfl, rfl, rfl, rfl⟩).2.1⟩

/-- Witness of C5: the four runs in which the registration is created or skipped
and the instance is created or fetched. -/
theorem list_step_once_witness :
    (((demoRun "" emptyServer).trace.map Entry.call).filter Call.isList).length = 1 ∧
    (((demoRun "" tprOnlyServer).trace.map Entry.call).filter Call.isList).length = 1 ∧
    (((demoRun "" instanceOnlyServer).trace.map Entry.call).filter Call.isList).length = 1 ∧
    (((demoRun "" fullServer).trace.map Entry.call).filter Call.isList).length = 1 :=
  ⟨match list_step_once (serverLib (.ok baseConfig) (.error (.other "no such file")))
      "" emptyServer [] zeroConfig (by decide) with
    | ⟨_, _, _, _, _, _, _, h, _⟩ => by rw [demoRun_eq, h]; rfl,
   match list_step_once (serverLib (.ok baseConfig) (.error (.other "no such file")))
      "" tprOnlyServer [] zeroConfig (by decide) with
    | ⟨_, _, _, _, _, _, _, h, _⟩ => by rw [demoRun_eq, h]; rfl,
   match list_step_once (serverLib (.ok baseConfig) (.error (.other "no such file")))
      "" instanceOnlyServer [] zeroConfig (by decide) with
    | ⟨_, _, _, _, _, _, _, h, _⟩ => by rw [demoRun_eq, h]; rfl,
   match list_step_once (serverLib (.ok baseConfig) (.error (.other "no such file")))
      "" fullServer [] zeroConfig (by decide) with
    | ⟨_, _, _, _, _, _, _, h, _⟩ => by rw [demoRun_eq, h]; rfl⟩

/-- Witness of C6: the run against a server whose ThirdPartyResource Get fails with
a server error. -/
theorem fail_fast_witness :
    (main brokenLib "" (St.init emptyServer [] zeroConfig)).trace =
      [⟨.InClusterConfig, .ok (.config 0)⟩, ⟨.NewForConfig 0, .ok (.clientset ⟨baseConfig⟩)⟩] ++
        ⟨.tprGet "example.k8s.io", .error (.other "internal server error")⟩ :: [] ∧
    (main brokenLib "" (St.init emptyServer [] zeroConfig)).panicked =
      some (.other "internal server error") :=
  ⟨by decide,
    (fail_fast brokenLib "" emptyServer [] zeroConfig
      [⟨.InClusterConfig, .ok (.config 0)⟩, ⟨.NewForConfig 0, .ok (.clientset ⟨baseConfig⟩)⟩] []
      (.tprGet "example.k8s.io") (.other "internal server error") (by decide) rfl).2⟩

/-- Witness of C9 (amended): the creation request of the run against the empty
server. -/
theorem rest_requests_target_witness :
    (⟨.request (instancePost ⟨configuredBase⟩), .ok (.exampleObj example1)⟩ : Entry) ∈
      (demoRun "" emptyServer).trace ∧
    (instancePost ⟨configuredBase⟩).resource = "examples" ∧
    (instancePost ⟨configuredBase⟩).client.config.APIPath = "/apis" :=
  ⟨by decide,
    (rest_requests_target (serverLib (.ok baseConfig) (.error (.other "no such file")))
      "" emptyServer [] zeroConfig
      ⟨.request (instancePost ⟨configuredBase⟩), .ok (.exampleObj example1)⟩
      (instancePost ⟨configuredBase⟩) (by decide) rfl).1,
    (rest_requests_target (serverLib (.ok baseConfig) (.error (.other "no such file")))
      "" emptyServer [] zeroConfig
      ⟨.request (instancePost ⟨configuredBase⟩), .ok (.exampleObj example1)⟩
      (instancePost ⟨configuredBase⟩) (by decide) rfl).2.1⟩

end Claims

end TPRExample
